import Mathlib

/-
Verification of the GPU microbenchmark harness (common.hpp, gpu.hpp,
benchmark.hpp): a shallow embedding of its data model and the operations the
specification talks about, with theorems settling each specified property.

Machine integers are modelled as Nat, with the narrowing casts of the source
written as explicit reductions modulo a power of two at the places where the
source casts.  Pointers and runtime handles are modelled as Option Nat, where
none stands for a null pointer/handle.  Floating-point arithmetic of the
statistics code is modelled over exact numbers (inputs as rationals, the final
square root over the reals).
-/

/-! ## Physical bus addresses (common.hpp, gpu.hpp) -/

/-- pci_address (common.hpp): domain (uint16), bus, device, function (uint8).
Fields are modelled as Nat; each construction site applies the source's casts. -/
structure pci_address where
  domain : Nat
  bus : Nat
  device : Nat
  function : Nat
deriving DecidableEq, Repr

/-- Modelled from the spec: the member pci_address::rsmi_id is invoked at
benchmark.hpp:226 but its definition is not among the given sources.  The spec
describes it as the packed 32-bit integer form of the bus address used for the
RSMI telemetry API, packed as domain<<13 | bus<<8 | device<<3 | function. -/
def pci_address.rsmi_id (a : pci_address) : Nat :=
  (a.domain <<< 13) ||| (a.bus <<< 8) ||| (a.device <<< 3) ||| a.function

/-- Bus field decoded from an HSA BDFID word (gpu.hpp:369): bits 8..15. -/
def bdfid_bus (bfd : Nat) : Nat := (bfd >>> 8) &&& ((1 <<< 8) - 1)

/-- Device field decoded from an HSA BDFID word (gpu.hpp:370): bits 3..7. -/
def bdfid_device (bfd : Nat) : Nat := (bfd >>> 3) &&& ((1 <<< 5) - 1)

/-- Function field decoded from an HSA BDFID word (gpu.hpp:371): bits 0..2. -/
def bdfid_function (bfd : Nat) : Nat := bfd &&& ((1 <<< 3) - 1)

/-- The bits above the bus field of a packed address word: bits 16 and up. -/
def bdfid_high_bits (bfd : Nat) : Nat := bfd >>> 16

/-- The pci_address built from HIP device properties (gpu.hpp:349-354).  HIP has
no pciFunctionID, so the function field is always set to 0; the other fields are
narrowed by the uint16_t/uint8_t casts of the source. -/
def hip_pci_address (pciDomainID pciBusID pciDeviceID : Nat) : pci_address :=
  { domain := pciDomainID % 2 ^ 16
  , bus := pciBusID % 2 ^ 8
  , device := pciDeviceID % 2 ^ 8
  , function := 0 }

/-- The pci_address decoded from an HSA agent's domain and BDFID queries
(gpu.hpp:367-372). -/
def hsa_pci_address (pci_domain_id pci_bfd_id : Nat) : pci_address :=
  { domain := pci_domain_id &&& 0xFFFF
  , bus := bdfid_bus pci_bfd_id
  , device := bdfid_device pci_bfd_id
  , function := bdfid_function pci_bfd_id }

/-! ## family_set: bitmask of hardware generations (gpu.hpp:209-287) -/

/-- gpu::family_set (gpu.hpp:209-287): a bitmask over the closed enumeration of
hardware generations, wrapping its backing integer. -/
structure family_set where
  families : Nat
deriving DecidableEq, Repr

namespace family_set

/-- enum bits value none = 0x0 (gpu.hpp:211). -/
def none_bits : Nat := 0x0

/-- enum bits value gcn5 = 0x1 (gpu.hpp:213). -/
def gcn5 : Nat := 0x1

/-- enum bits value rdna1 = 0x2 (gpu.hpp:215). -/
def rdna1 : Nat := 0x2

/-- enum bits value rdna2 = 0x4 (gpu.hpp:216). -/
def rdna2 : Nat := 0x4

/-- enum bits value rdna3 = 0x8 (gpu.hpp:217). -/
def rdna3 : Nat := 0x8

/-- enum bits value rdna4 = 0x10 (gpu.hpp:218). -/
def rdna4 : Nat := 0x10

/-- enum bits value cdna1 = 0x20 (gpu.hpp:220). -/
def cdna1 : Nat := 0x20

/-- enum bits value cdna2 = 0x40 (gpu.hpp:221). -/
def cdna2 : Nat := 0x40

/-- enum bits value cdna3 = 0x80 (gpu.hpp:222). -/
def cdna3 : Nat := 0x80

/-- enum bits value all = (cdna3 << 1) - 1 (gpu.hpp:224). -/
def all : Nat := (cdna3 <<< 1) - 1

/-- family_set::binop (gpu.hpp:251-255): lifts a binary operation on the
backing integers to family_set. -/
def binop (a b : family_set) (f : Nat → Nat → Nat) : family_set :=
  ⟨f a.families b.families⟩

/-- The const overload of family_set::operator& (gpu.hpp:266-268): a pure
function returning the intersection, leaving both operands unchanged. -/
def and_const (a b : family_set) : family_set :=
  binop a b fun x y => x &&& y

/-- The non-const overload of family_set::operator& (gpu.hpp:270-273): executes
this = binop(this, other, and) and returns a reference to this.  Modelled as
the pair (value of the expression, state of the left operand afterwards). -/
def and_nonconst (a b : family_set) : family_set × family_set :=
  (binop a b fun x y => x &&& y, binop a b fun x y => x &&& y)

/-- The const overload of family_set::operator^ (gpu.hpp:275-277): a pure
function returning the symmetric difference. -/
def xor_const (a b : family_set) : family_set :=
  binop a b fun x y => x ^^^ y

/-- The non-const overload of family_set::operator^ (gpu.hpp:279-282): executes
this = binop(this, other, xor) and returns a reference to this.  Modelled as
the pair (value of the expression, state of the left operand afterwards). -/
def xor_nonconst (a b : family_set) : family_set × family_set :=
  (binop a b fun x y => x ^^^ y, binop a b fun x y => x ^^^ y)

end family_set

/-! ## Architecture classification (gpu.hpp:27-52, 412-433, 445-470) -/

/-- std::string::starts_with, on the underlying character list. -/
def starts_with (s p : String) : Bool := p.data.isPrefixOf s.data

/-- device::get_family (gpu.hpp:412-433): the runtime classifier mapping the
reported gcnArchName string to a family, by ordered prefix tests. -/
def get_family (arch_name : String) : family_set :=
  if starts_with arch_name "gfx12" then ⟨family_set.rdna4⟩
  else if starts_with arch_name "gfx11" then ⟨family_set.rdna3⟩
  else if starts_with arch_name "gfx103" then ⟨family_set.rdna2⟩
  else if starts_with arch_name "gfx101" then ⟨family_set.rdna1⟩
  else if starts_with arch_name "gfx94" || starts_with arch_name "gfx95" then ⟨family_set.cdna3⟩
  else if starts_with arch_name "gfx90a" then ⟨family_set.cdna2⟩
  else if starts_with arch_name "gfx908" then ⟨family_set.cdna1⟩
  else if starts_with arch_name "gfx9" then ⟨family_set.gcn5⟩
  else ⟨family_set.none_bits⟩

/-- gpu::get_device_family combined with the target-defining preprocessor block
(gpu.hpp:27-52 and 445-470): the compile-time classification of a binary built
for the given target.  Each branch transliterates one preprocessor condition;
the compiler defines the macro gfxNNNN for exactly that target, and defines the
family-wide macros GFX12/GFX11 for every target whose name extends gfx12/gfx11. -/
def get_device_family (target : String) : family_set :=
  if target = "gfx942" ∨ target = "gfx950" then ⟨family_set.cdna3⟩
  else if target = "gfx90a" then ⟨family_set.cdna2⟩
  else if target = "gfx908" then ⟨family_set.cdna1⟩
  else if target ∈ ["gfx900", "gfx902", "gfx904", "gfx906", "gfx90c"] then ⟨family_set.gcn5⟩
  else if starts_with target "gfx12" then ⟨family_set.rdna4⟩
  else if starts_with target "gfx11" then ⟨family_set.rdna3⟩
  else if target ∈ ["gfx1030", "gfx1031", "gfx1032", "gfx1033", "gfx1034", "gfx1035", "gfx1036"]
    then ⟨family_set.rdna2⟩
  else if target ∈ ["gfx1010", "gfx1011", "gfx1012", "gfx1013"] then ⟨family_set.rdna1⟩
  else ⟨family_set.none_bits⟩

/-- The concrete build targets named by the preprocessor block (gpu.hpp:27-52),
spelled as the architecture codenames the macros correspond to.  The GFX12 and
GFX11 family-wide conditions contribute their concrete members. -/
def supported_targets : List String :=
  ["gfx942", "gfx950", "gfx90a", "gfx908",
   "gfx900", "gfx902", "gfx904", "gfx906", "gfx90c",
   "gfx1200", "gfx1201",
   "gfx1100", "gfx1101", "gfx1102", "gfx1103",
   "gfx1030", "gfx1031", "gfx1032", "gfx1033", "gfx1034", "gfx1035", "gfx1036",
   "gfx1010", "gfx1011", "gfx1012", "gfx1013"]

/-! ## Move-only resource handles (gpu.hpp:79-207) -/

namespace gpu

/-- gpu::ptr (gpu.hpp:79-110): owned device buffer; raw models the T* handle,
none standing for nullptr. -/
structure ptr where
  raw : Option Nat
deriving DecidableEq, Repr

/-- gpu::ptr move constructor (gpu.hpp:96-98):
raw(std::exchange(other.raw, nullptr)).  Result: (the constructed object, the
source afterwards). -/
def ptr.move_ctor (other : ptr) : ptr × ptr :=
  (⟨other.raw⟩, ⟨Option.none⟩)

/-- gpu::ptr move assignment (gpu.hpp:100-103): std::swap(this->raw, other.raw).
Result: (the destination afterwards, the source afterwards). -/
def ptr.move_assign (self other : ptr) : ptr × ptr :=
  (⟨other.raw⟩, ⟨self.raw⟩)

/-- gpu::event (gpu.hpp:112-144): owned timing event handle. -/
structure event where
  handle : Option Nat
deriving DecidableEq, Repr

/-- gpu::event move constructor (gpu.hpp:124-126):
handle(std::exchange(other.handle, nullptr)). -/
def event.move_ctor (other : event) : event × event :=
  (⟨other.handle⟩, ⟨Option.none⟩)

/-- gpu::event move assignment (gpu.hpp:128-131):
std::swap(this->handle, other.handle). -/
def event.move_assign (self other : event) : event × event :=
  (⟨other.handle⟩, ⟨self.handle⟩)

/-- gpu::stream (gpu.hpp:152-207): owned command stream handle. -/
structure stream where
  handle : Option Nat
deriving DecidableEq, Repr

/-- gpu::stream move constructor (gpu.hpp:175-177):
handle(std::exchange(other.handle, nullptr)). -/
def stream.move_ctor (other : stream) : stream × stream :=
  (⟨other.handle⟩, ⟨Option.none⟩)

/-- gpu::stream move assignment (gpu.hpp:179-182):
std::swap(this->handle, other.handle). -/
def stream.move_assign (self other : stream) : stream × stream :=
  (⟨other.handle⟩, ⟨self.handle⟩)

/-! ### Submissions to the HIP runtime (gpu.hpp:194-206) -/

/-- The operation payload of one asynchronous submission to the HIP runtime. -/
inductive hip_submission_kind
| memset_fill (dst val count : Nat)
| event_record (e : Nat)
deriving DecidableEq, Repr

/-- One asynchronous submission: the stream queue it was placed on (none is the
default null stream of the runtime) and the operation submitted. -/
structure hip_submission where
  on_stream : Option Nat
  kind : hip_submission_kind
deriving DecidableEq, Repr

/-- The null stream that hipMemsetAsync's trailing stream parameter defaults to
when a call site omits it. -/
def null_stream : Option Nat := Option.none

/-- hipMemsetAsync(dst, value, sizeBytes, stream): enqueues an asynchronous
memory fill on the given stream. -/
def hipMemsetAsync (dst value count : Nat) (str : Option Nat) : hip_submission :=
  { on_stream := str, kind := .memset_fill dst value count }

/-- hipEventRecord(event, stream): enqueues an event record on the stream. -/
def hipEventRecord (e : Nat) (str : Option Nat) : hip_submission :=
  { on_stream := str, kind := .event_record e }

/-- stream::memset (gpu.hpp:204-206): calls hipMemsetAsync(d_ptr, ch, count),
omitting the trailing stream argument, so hipMemsetAsync runs with its default
null stream; this->handle is not passed. -/
def stream.memset (_self : stream) (d_ptr ch count : Nat) : hip_submission :=
  hipMemsetAsync d_ptr ch count null_stream

/-- stream::record (gpu.hpp:200-202): calls
hipEventRecord(event.handle, this->handle), submitting on this stream. -/
def stream.record (self : stream) (e : Nat) : hip_submission :=
  hipEventRecord e self.handle

end gpu

/-! ## Benchmark executor (benchmark.hpp) -/

namespace benchmark

/-- warmups = 10 (benchmark.hpp:130). -/
def warmups : Nat := 10

/-- iterations = 50 (benchmark.hpp:131). -/
def iterations : Nat := 50

/-- One operation issued by executor::bench, in program order: an asynchronous
cache-flush memory-set, a device synchronize, an event record into the stream
(start or stop of measured trial i), or the invocation of the workload. -/
inductive gpu_op
| memset_fill
| device_sync
| record_start (i : Nat)
| record_stop (i : Nat)
| workload
deriving DecidableEq, Repr

/-- Whether an operation is an event record. -/
def gpu_op.is_event_record : gpu_op → Bool
| .record_start _ => true
| .record_stop _ => true
| _ => false

/-- The body of one warmup trial of executor::bench (benchmark.hpp:291-296):
stream.memset of the cache buffer, dev.sync, the workload, dev.sync.  No event
is recorded. -/
def warmup_trial : List gpu_op :=
  [.memset_fill, .device_sync, .workload, .device_sync]

/-- The body of measured trial i of executor::bench (benchmark.hpp:298-305):
stream.memset of the cache buffer, dev.sync, record of events[i].first, the
workload, record of events[i].second, dev.sync. -/
def measured_trial (i : Nat) : List gpu_op :=
  [.memset_fill, .device_sync, .record_start i, .workload, .record_stop i, .device_sync]

/-- The warmup loop of executor::bench (benchmark.hpp:291-296), executing the
warmup trial body count times in order. -/
def warmup_loop : Nat → List gpu_op
| 0 => []
| n + 1 => warmup_trial ++ warmup_loop n

/-- The measured loop of executor::bench (benchmark.hpp:298-305), iterating the
events vector in order: trial for index i, then the remaining count - 1 trials. -/
def measured_loop (i : Nat) : Nat → List gpu_op
| 0 => []
| n + 1 => measured_trial i ++ measured_loop (i + 1) n

/-- The full operation trace of executor::bench(f) (benchmark.hpp:285-305):
the warmup loop followed by the measured loop over the events vector. -/
def bench_trace (w n : Nat) : List gpu_op :=
  warmup_loop w ++ measured_loop 0 n

/-! ### Device identity resolution against the RSMI enumeration
(benchmark.hpp:225-240) -/

/-- The message of the traced_error thrown when no RSMI device matches
(benchmark.hpp:239): it is built from the HIP ordinal alone. -/
def resolution_error_message (hip_ordinal : Nat) : String :=
  "could not map HIP device id " ++ toString hip_ordinal ++ " to an RSMI device id"

/-- The enumeration loop of the resolver (benchmark.hpp:230-237): for indices i
upward, return the first index whose reported packed bus address equals the
target. -/
def rsmi_lookup_loop (target : Nat) : List Nat → Nat → Option Nat
| [], _ => Option.none
| rsmi_pci_id :: rest, i =>
  if rsmi_pci_id = target then Option.some i else rsmi_lookup_loop target rest (i + 1)

/-- The resolver lambda of executor::executor (benchmark.hpp:225-240): given the
packed bus addresses of the N enumerated RSMI devices (in index order 0..N-1),
the target packed address of the HIP device, and the HIP ordinal, return the
first matching index, or throw the traced_error built from the ordinal.
A thrown error propagates out of the executor constructor. -/
def resolve_rsmi_dev (enum_ids : List Nat) (hip_pci_id : Nat) (hip_ordinal : Nat) :
    Except String Nat :=
  match rsmi_lookup_loop hip_pci_id enum_ids 0 with
  | Option.some i => Except.ok i
  | Option.none => Except.error (resolution_error_message hip_ordinal)

/-! ### Performance-level governor (benchmark.hpp:246-283) -/

/-- rsmi_dev_perf_level_t values the governor manipulates (rocm_smi):
the deterministic target is stable_peak; unknown is the sentinel the
orig_perf_level member is initialized to. -/
inductive perf_level
| auto_mode
| low
| high
| manual
| stable_std
| stable_peak
| determinism
| unknown
deriving DecidableEq, Repr

/-- A perf-level telemetry call issued by the executor. -/
inductive smi_call
| get_perf_level
| set_perf_level (l : perf_level)
deriving DecidableEq, Repr

/-- The value of the orig_perf_level member after construction
(benchmark.hpp:210, 248-251): the level read by rsmi_dev_perf_level_get when the
read succeeds, otherwise the unknown sentinel it was initialized to. -/
def executor_orig_level (read_ok : Bool) (read_level : perf_level) : perf_level :=
  if read_ok then read_level else .unknown

/-- The perf-level calls issued by executor::executor (benchmark.hpp:246-260):
one rsmi_dev_perf_level_get, then one rsmi_dev_perf_level_set_v1 to stable peak;
the set call is issued unconditionally, whatever the read returned. -/
def executor_ctor_perf_calls (_read_ok : Bool) (_read_level : perf_level) : List smi_call :=
  [.get_perf_level, .set_perf_level .stable_peak]

/-- The perf-level calls issued by the destructor (benchmark.hpp:269-283): if
orig_perf_level is not the unknown sentinel, re-read the current level, and only
when that read succeeds and the current level differs from the original issue a
restoring set call. -/
def executor_dtor_perf_calls (orig : perf_level) (reget_ok : Bool) (current : perf_level) :
    List smi_call :=
  if orig ≠ perf_level.unknown then
    .get_perf_level ::
      (if reget_ok ∧ current ≠ orig then [.set_perf_level orig] else [])
  else []

end benchmark

/-! ## Statistics engine (common.hpp:126-176, benchmark.hpp:314-327) -/

/-- The accumulation loop shared by both stddev_helper variants
(common.hpp:129-133 and 144-148): the sum of squared deviations from the given
average.  For the duration specialization the same arithmetic runs on the
underlying scalar counts.  Note that the loop result is not divided by the
element count. -/
def sum_sq_dev (items : List ℚ) (average : ℚ) : ℚ :=
  items.foldl (fun variance item => variance + (item - average) * (item - average)) 0

/-- stddev_helper<T>::compute (common.hpp:126-152): the square root of the
accumulated sum of squared deviations. -/
noncomputable def stddev_helper_compute (items : List ℚ) (average : ℚ) : ℝ :=
  Real.sqrt ((sum_sq_dev items average : ℚ) : ℝ)

/-- The average computed by the statistic<T> constructor (common.hpp:161-173):
the running total of the items divided by items.size(). -/
def statistic_average (items : List ℚ) : ℚ :=
  items.sum / (items.length : ℚ)

/-- The stddev member computed by the statistic<T> constructor
(common.hpp:174): stddev_helper<T>::compute(items, average). -/
noncomputable def statistic_stddev (items : List ℚ) : ℝ :=
  stddev_helper_compute items (statistic_average items)

/-- Specification formula (spec section 4.2): the population standard
deviation, sqrt(sum((x - average)^2) / count). -/
noncomputable def population_stddev (items : List ℚ) : ℝ :=
  Real.sqrt ((sum_sq_dev items (statistic_average items) / (items.length : ℚ) : ℚ) : ℝ)

/-- The inline aggregation of executor::bench (benchmark.hpp:314-327): the sum
of squared deviations over the measured durations is divided by iterations
before the square root is taken. -/
noncomputable def bench_stddev (durations : List ℚ) : ℝ :=
  Real.sqrt
    ((sum_sq_dev durations (durations.sum / (benchmark.iterations : ℚ))
        / (benchmark.iterations : ℚ) : ℚ) : ℝ)

/-! ## Helper lemmas -/

/-- No operation of the warmup loop is an event record. -/
theorem warmup_loop_no_records (w : Nat) :
    ∀ op ∈ benchmark.warmup_loop w, op.is_event_record = false := by
  induction w with
  | zero => intro op h; cases h
  | succ n ih =>
    intro op h
    rw [benchmark.warmup_loop, List.mem_append] at h
    rcases h with h | h
    · fin_cases h <;> rfl
    · exact ih op h

/-- The event records of the measured loop starting at index i are exactly the
start/stop pairs for indices i, i+1, ... in order. -/
theorem measured_loop_records (n : Nat) : ∀ i : Nat,
    (benchmark.measured_loop i n).filter (fun op => op.is_event_record) =
      (List.range' i n).flatMap
        (fun j => [benchmark.gpu_op.record_start j, benchmark.gpu_op.record_stop j]) := by
  induction n with
  | zero => intro i; rfl
  | succ n ih =>
    intro i
    rw [benchmark.measured_loop, List.filter_append, List.range'_succ, ih (i + 1)]
    rfl

/-- The resolver loop returns none when the target occurs nowhere in the rest of
the enumeration, whatever the running index. -/
theorem lookup_loop_not_mem (target : Nat) (l : List Nat) (h : target ∉ l) :
    ∀ i, benchmark.rsmi_lookup_loop target l i = Option.none := by
  induction l with
  | nil => intro i; rfl
  | cons a rest ih =>
    intro i
    rw [benchmark.rsmi_lookup_loop, if_neg (by simp at h; omega)]
    exact ih (by simp at h; exact h.2) (i + 1)

/-- On a duplicate-free enumeration holding the target at offset k, the resolver
loop started at running index i answers i + k. -/
theorem lookup_loop_first (target : Nat) (l : List Nat) :
    ∀ (i k : Nat) (hk : k < l.length), l.Nodup → l.get ⟨k, hk⟩ = target →
      benchmark.rsmi_lookup_loop target l i = Option.some (i + k) := by
  induction l with
  | nil => intro i k hk; cases hk
  | cons a rest ih =>
    intro i k hk hnodup hget
    cases k with
    | zero =>
      rw [benchmark.rsmi_lookup_loop, if_pos (show a = target from hget)]
      simp
    | succ k =>
      have hk2 : k < rest.length := by simpa using hk
      have hget2 : rest.get ⟨k, hk2⟩ = target := hget
      have hmem : target ∈ rest := hget2 ▸ rest.get_mem k hk2
      have hane : ¬ a = target := by
        intro h
        exact (List.nodup_cons.mp hnodup).1 (h ▸ hmem)
      rw [benchmark.rsmi_lookup_loop, if_neg hane,
        ih (i + 1) k hk2 (List.nodup_cons.mp hnodup).2 hget2]
      congr 1
      omega

/-! ## Claims -/

/-- C1: the Statistics Engine's stddev is not the population standard deviation.
Evaluated at the two samples 0 and 2: the engine computes the average 1, then
stddev_helper::compute returns sqrt((0-1)^2 + (2-1)^2) = sqrt 2 without dividing
by the sample count, whereas the population standard deviation of these samples
is sqrt(2 / 2) = 1. -/
theorem statistic_stddev_omits_count_division :
    statistic_average [0, 2] = 1 ∧
    statistic_stddev [0, 2] = Real.sqrt 2 ∧
    population_stddev [0, 2] = 1 ∧
    statistic_stddev [0, 2] ≠ population_stddev [0, 2] := by
  have havg : statistic_average [0, 2] = 1 := by
    norm_num [statistic_average]
  have hsum : sum_sq_dev [0, 2] (statistic_average [0, 2]) = 2 := by
    rw [havg]; norm_num [sum_sq_dev]
  have hstd : statistic_stddev [0, 2] = Real.sqrt 2 := by
    rw [statistic_stddev, stddev_helper_compute, hsum]; norm_num
  have hpop : population_stddev [0, 2] = 1 := by
    rw [population_stddev, hsum]; norm_num
  refine ⟨havg, hstd, hpop, ?_⟩
  rw [hstd, hpop]
  intro h
  have := Real.sqrt_eq_one.mp h
  norm_num at this

/-- C2: stream::memset does not enqueue on the stream it is invoked on.
Evaluated at a stream whose runtime handle is 7: the memory-set submission is
placed on the defaulted null stream, not on handle 7, while stream::record does
submit on the invoked stream's handle. -/
theorem memset_not_on_invoked_stream :
    (gpu.stream.memset ⟨Option.some 7⟩ 1 0 4096).on_stream = gpu.null_stream ∧
    (gpu.stream.record ⟨Option.some 7⟩ 0).on_stream = Option.some 7 ∧
    gpu.null_stream ≠ Option.some 7 :=
  ⟨rfl, rfl, by decide⟩

set_option maxRecDepth 4000 in
/-- C3 counterexample: with the source's warmups = 10 and iterations = 50, a
bench run issues exactly 100 event records -- none of them during the warmup
loop -- whereas recording a start and a stop event in every trial, warmup trials
included, would issue 2 * (10 + 50) = 120. -/
theorem warmup_trials_record_no_events :
    ((benchmark.bench_trace benchmark.warmups benchmark.iterations).countP
      (fun op => op.is_event_record)) = 100 ∧
    (benchmark.warmup_loop benchmark.warmups).countP (fun op => op.is_event_record) = 0 ∧
    (100 : Nat) ≠ 2 * (benchmark.warmups + benchmark.iterations) := by
  refine ⟨by decide, by decide, by decide⟩

/-- C3 (amended): every measured trial executes the six-step protocol flush
memory-set, synchronize, record the start event, workload, record the stop
event, synchronize; warmup trials execute the same protocol without the two
event records: no operation of the warmup loop is an event record, and the
records of a whole bench run are exactly the start/stop pairs of the measured
trials in order. -/
theorem bench_trial_protocol (w n : Nat) :
    (∀ i, benchmark.measured_trial i =
      [benchmark.gpu_op.memset_fill, benchmark.gpu_op.device_sync,
       benchmark.gpu_op.record_start i, benchmark.gpu_op.workload,
       benchmark.gpu_op.record_stop i, benchmark.gpu_op.device_sync]) ∧
    benchmark.warmup_trial =
      [benchmark.gpu_op.memset_fill, benchmark.gpu_op.device_sync,
       benchmark.gpu_op.workload, benchmark.gpu_op.device_sync] ∧
    (∀ op ∈ benchmark.warmup_loop w, op.is_event_record = false) ∧
    (benchmark.bench_trace w n).filter (fun op => op.is_event_record) =
      (List.range n).flatMap
        (fun i => [benchmark.gpu_op.record_start i, benchmark.gpu_op.record_stop i]) := by
  refine ⟨fun i => rfl, rfl, warmup_loop_no_records w, ?_⟩
  rw [benchmark.bench_trace, List.filter_append, List.filter_eq_nil_iff.mpr, List.nil_append,
    measured_loop_records n 0, List.range_eq_range']
  intro a ha
  simp [warmup_loop_no_records w a ha]

/-- C3 witness: the amended protocol theorem applied to the concrete run shape
warmups = 10, iterations = 50, at the first warmup operation. -/
theorem bench_trial_protocol_witness :
    benchmark.gpu_op.is_event_record benchmark.gpu_op.memset_fill = false :=
  (bench_trial_protocol 10 50).2.2.1 benchmark.gpu_op.memset_fill (by decide)

/-- C4 counterexample: even when the level read at construction already equals
the stable-peak target, the constructor still issues the
rsmi_dev_perf_level_set_v1 call: the set call is unconditional. -/
theorem ctor_sets_level_even_if_already_target :
    benchmark.smi_call.set_perf_level benchmark.perf_level.stable_peak ∈
      benchmark.executor_ctor_perf_calls true benchmark.perf_level.stable_peak := by
  decide

/-- C4 (amended): construction issues the set call to the stable-peak target
unconditionally, whatever level the initial read returned; destruction is free
of redundant restores: when the re-read current level equals the saved original
level, no restoring set call is issued. -/
theorem governor_set_unconditional_restore_idempotent
    (read_ok reget_ok : Bool) (read_level orig : benchmark.perf_level) :
    benchmark.smi_call.set_perf_level benchmark.perf_level.stable_peak ∈
      benchmark.executor_ctor_perf_calls read_ok read_level ∧
    (∀ l, benchmark.smi_call.set_perf_level l ∉
      benchmark.executor_dtor_perf_calls orig reget_ok orig) := by
  refine ⟨by simp [benchmark.executor_ctor_perf_calls], ?_⟩
  intro l
  rw [benchmark.executor_dtor_perf_calls]
  by_cases h : orig = benchmark.perf_level.unknown
  · simp [h]
  · simp [h]

/-- C5 counterexample: move-assigning from a ptr holding handle 7 into a ptr
holding handle 5 swaps the two handles, so afterwards the moved-from source
still holds the non-null handle 5: the source does not become empty, and a
moved-from object can hold a non-null raw handle. -/
theorem move_assign_leaves_source_nonempty :
    (gpu.ptr.move_assign ⟨Option.some 5⟩ ⟨Option.some 7⟩).2 = ⟨Option.some 5⟩ ∧
    (gpu.ptr.move_assign ⟨Option.some 5⟩ ⟨Option.some 7⟩).2.raw ≠ Option.none :=
  ⟨rfl, by decide⟩

/-- C5 (amended): for each move-only handle (owned device buffer ptr, event,
stream), move-construction transfers the handle and leaves the source empty;
move-assignment exchanges the two handles, so the destination receives the
source's handle and the moved-from source ends empty exactly when the
destination was empty beforehand. -/
theorem move_handle_semantics (dst src : gpu.ptr) (edst esrc : gpu.event)
    (sdst ssrc : gpu.stream) :
    (gpu.ptr.move_ctor src).1.raw = src.raw ∧
    (gpu.ptr.move_ctor src).2.raw = Option.none ∧
    (gpu.ptr.move_assign dst src).1.raw = src.raw ∧
    (gpu.ptr.move_assign dst src).2.raw = dst.raw ∧
    ((gpu.ptr.move_assign dst src).2.raw = Option.none ↔ dst.raw = Option.none) ∧
    (gpu.event.move_ctor esrc).1.handle = esrc.handle ∧
    (gpu.event.move_ctor esrc).2.handle = Option.none ∧
    (gpu.event.move_assign edst esrc).1.handle = esrc.handle ∧
    (gpu.event.move_assign edst esrc).2.handle = edst.handle ∧
    ((gpu.event.move_assign edst esrc).2.handle = Option.none ↔ edst.handle = Option.none) ∧
    (gpu.stream.move_ctor ssrc).1.handle = ssrc.handle ∧
    (gpu.stream.move_ctor ssrc).2.handle = Option.none ∧
    (gpu.stream.move_assign sdst ssrc).1.handle = ssrc.handle ∧
    (gpu.stream.move_assign sdst ssrc).2.handle = sdst.handle ∧
    ((gpu.stream.move_assign sdst ssrc).2.handle = Option.none ↔ sdst.handle = Option.none) :=
  ⟨rfl, rfl, rfl, rfl, Iff.rfl, rfl, rfl, rfl, rfl, Iff.rfl, rfl, rfl, rfl, rfl, Iff.rfl⟩

/-- C6 counterexample: resolving two different target addresses against the
same enumeration yields literally identical errors, so the thrown
identity-resolution error does not carry the unresolved address: its message is
built from the HIP ordinal alone. -/
theorem resolution_error_lacks_address :
    benchmark.resolve_rsmi_dev [] 5 0 = benchmark.resolve_rsmi_dev [] 6 0 ∧
    (5 : Nat) ≠ 6 :=
  ⟨rfl, by decide⟩

/-- C6 (amended): the resolver scans the secondary enumeration in index order
0..N-1 and returns the first index whose packed address equals the target; with
distinct addresses and target equal to enumeration[k] it returns k, and when no
enumerated address matches it fails with the identity-resolution error carrying
the primary ordinal (but not the address), which propagates out of the
constructor. -/
theorem resolver_first_match (enum_ids : List Nat) (target ordinal k : Nat)
    (hk : k < enum_ids.length) :
    (enum_ids.Nodup → enum_ids.get ⟨k, hk⟩ = target →
      benchmark.resolve_rsmi_dev enum_ids target ordinal = Except.ok k) ∧
    (target ∉ enum_ids →
      benchmark.resolve_rsmi_dev enum_ids target ordinal =
        Except.error (benchmark.resolution_error_message ordinal)) := by
  constructor
  · intro hnodup hget
    rw [benchmark.resolve_rsmi_dev, lookup_loop_first target enum_ids 0 k hk hnodup hget]
    simp
  · intro hmem
    rw [benchmark.resolve_rsmi_dev, lookup_loop_not_mem target enum_ids hmem 0]

/-- C6 witness: the resolver theorem applied to the concrete enumeration
[3, 9, 12] with target 9 (the address at index 1) and ordinal 7. -/
theorem resolver_first_match_witness :
    benchmark.resolve_rsmi_dev [3, 9, 12] 9 7 = Except.ok 1 :=
  (resolver_first_match [3, 9, 12] 9 7 1 (by decide)).1 (by decide) (by decide)

set_option maxRecDepth 4000 in
/-- C7: the runtime classifier maps the codename gfx1031 to rdna2, gfx90a to
cdna2, gfx1100 to rdna3 and gfx000 to none; and for every architecture the
preprocessor block supports -- each concretely listed target, and every target
whose codename extends gfx12 or gfx11 -- the compile-time classification equals
the runtime classification of the same codename. -/
theorem classifier_compile_runtime_agree :
    get_family "gfx1031" = ⟨family_set.rdna2⟩ ∧
    get_family "gfx90a" = ⟨family_set.cdna2⟩ ∧
    get_family "gfx1100" = ⟨family_set.rdna3⟩ ∧
    get_family "gfx000" = ⟨family_set.none_bits⟩ ∧
    (∀ t ∈ supported_targets, get_device_family t = get_family t) ∧
    (∀ rest : List Char,
      get_device_family (String.mk ('g' :: 'f' :: 'x' :: '1' :: '2' :: rest)) =
        get_family (String.mk ('g' :: 'f' :: 'x' :: '1' :: '2' :: rest))) ∧
    (∀ rest : List Char,
      get_device_family (String.mk ('g' :: 'f' :: 'x' :: '1' :: '1' :: rest)) =
        get_family (String.mk ('g' :: 'f' :: 'x' :: '1' :: '1' :: rest))) := by
  refine ⟨by decide, by decide, by decide, by decide, by decide, ?_, ?_⟩
  · intro rest
    have h12 : starts_with (String.mk ('g' :: 'f' :: 'x' :: '1' :: '2' :: rest)) "gfx12"
        = true := by
      simp [starts_with, List.isPrefixOf]
    simp [get_device_family, get_family, h12, String.ext_iff]
  · intro rest
    have h11 : starts_with (String.mk ('g' :: 'f' :: 'x' :: '1' :: '1' :: rest)) "gfx11"
        = true := by
      simp [starts_with, List.isPrefixOf]
    have h12 : starts_with (String.mk ('g' :: 'f' :: 'x' :: '1' :: '1' :: rest)) "gfx12"
        = false := by
      simp [starts_with, List.isPrefixOf]
    simp [get_device_family, get_family, h11, h12, String.ext_iff]

/-- C7 witness: the classifier agreement applied to the concrete supported
target gfx1031. -/
theorem classifier_compile_runtime_agree_witness :
    get_device_family "gfx1031" = get_family "gfx1031" :=
  classifier_compile_runtime_agree.2.2.2.2.1 "gfx1031" (by decide)

/-- C8 counterexample: at the address with domain 1, bus 0, device 0 and
function 0 the packed form is 1 << 13 = 8192, and reading bits 8..15 of it back
yields a bus of 32, not the packed bus 0: the domain term, shifted by 13,
overlaps the bus field, so unpacking does not recover the fields. -/
theorem packed_address_unpack_mismatch :
    pci_address.rsmi_id ⟨1, 0, 0, 0⟩ = 8192 ∧
    bdfid_bus (pci_address.rsmi_id ⟨1, 0, 0, 0⟩) = 32 ∧
    (32 : Nat) ≠ (⟨1, 0, 0, 0⟩ : pci_address).bus := by
  refine ⟨by decide, by decide, by decide⟩

/-- C8 (amended): the packed integer form equals
domain<<13 | bus<<8 | device<<3 | function, and in the domain-zero case, with
the fields inside their PCI ranges (bus below 2^8, device below 2^5, function
below 2^3), unpacking recovers the function from bits 0..2, the device from
bits 3..7 and the bus from bits 8..15, with nothing left above bit 15; a
nonzero domain corrupts the decoded bus field. -/
theorem packed_address_roundtrip (b d f : Nat)
    (hb : b < 2 ^ 8) (hd : d < 2 ^ 5) (hf : f < 2 ^ 3) :
    bdfid_function (pci_address.rsmi_id ⟨0, b, d, f⟩) = f ∧
    bdfid_device (pci_address.rsmi_id ⟨0, b, d, f⟩) = d ∧
    bdfid_bus (pci_address.rsmi_id ⟨0, b, d, f⟩) = b ∧
    bdfid_high_bits (pci_address.rsmi_id ⟨0, b, d, f⟩) = 0 := by
  refine ⟨?_, ?_, ?_, ?_⟩
  · rw [bdfid_function, pci_address.rsmi_id]
    apply Nat.eq_of_testBit_eq
    intro i
    rw [show ((1 <<< 3) - 1 : Nat) = 2 ^ 3 - 1 from by decide]
    simp only [Nat.testBit_and, Nat.testBit_or, Nat.testBit_shiftLeft,
      Nat.testBit_two_pow_sub_one, Nat.zero_testBit]
    rcases Nat.lt_or_ge i 3 with hi | hi
    · simp [hi, show ¬ i ≥ 8 from by omega, show ¬ i ≥ 3 from by omega]
    · have hf3 : f.testBit i = false :=
        Nat.testBit_lt_two_pow (lt_of_lt_of_le hf (Nat.pow_le_pow_right (by norm_num) hi))
      simp [hf3, show ¬ i < 3 from by omega]
  · rw [bdfid_device, pci_address.rsmi_id]
    apply Nat.eq_of_testBit_eq
    intro i
    rw [show ((1 <<< 5) - 1 : Nat) = 2 ^ 5 - 1 from by decide]
    simp only [Nat.testBit_and, Nat.testBit_or, Nat.testBit_shiftLeft, Nat.testBit_shiftRight,
      Nat.testBit_two_pow_sub_one, Nat.zero_testBit]
    rcases Nat.lt_or_ge i 5 with hi | hi
    · have hf3 : f.testBit (3 + i) = false :=
        Nat.testBit_lt_two_pow (lt_of_lt_of_le hf (Nat.pow_le_pow_right (by norm_num) (by omega)))
      simp [hi, hf3, show 3 + i - 3 = i from by omega, show ¬ 3 + i ≥ 8 from by omega]
    · have hd5 : d.testBit i = false :=
        Nat.testBit_lt_two_pow (lt_of_lt_of_le hd (Nat.pow_le_pow_right (by norm_num) hi))
      simp [hd5, show ¬ i < 5 from by omega]
  · rw [bdfid_bus, pci_address.rsmi_id]
    apply Nat.eq_of_testBit_eq
    intro i
    rw [show ((1 <<< 8) - 1 : Nat) = 2 ^ 8 - 1 from by decide]
    simp only [Nat.testBit_and, Nat.testBit_or, Nat.testBit_shiftLeft, Nat.testBit_shiftRight,
      Nat.testBit_two_pow_sub_one, Nat.zero_testBit]
    rcases Nat.lt_or_ge i 8 with hi | hi
    · have hd5 : d.testBit (8 + i - 3) = false :=
        Nat.testBit_lt_two_pow (lt_of_lt_of_le hd (Nat.pow_le_pow_right (by norm_num) (by omega)))
      have hf3 : f.testBit (8 + i) = false :=
        Nat.testBit_lt_two_pow (lt_of_lt_of_le hf (Nat.pow_le_pow_right (by norm_num) (by omega)))
      simp [hi, hd5, hf3, show 8 + i - 8 = i from by omega]
    · have hb8 : b.testBit i = false :=
        Nat.testBit_lt_two_pow (lt_of_lt_of_le hb (Nat.pow_le_pow_right (by norm_num) hi))
      simp [hb8, show ¬ i < 8 from by omega]
  · rw [bdfid_high_bits, pci_address.rsmi_id]
    apply Nat.eq_of_testBit_eq
    intro i
    simp only [Nat.testBit_or, Nat.testBit_shiftLeft, Nat.testBit_shiftRight, Nat.zero_testBit]
    have hb8 : b.testBit (16 + i - 8) = false :=
      Nat.testBit_lt_two_pow (lt_of_lt_of_le hb (Nat.pow_le_pow_right (by norm_num) (by omega)))
    have hd5 : d.testBit (16 + i - 3) = false :=
      Nat.testBit_lt_two_pow (lt_of_lt_of_le hd (Nat.pow_le_pow_right (by norm_num) (by omega)))
    have hf3 : f.testBit (16 + i) = false :=
      Nat.testBit_lt_two_pow (lt_of_lt_of_le hf (Nat.pow_le_pow_right (by norm_num) (by omega)))
    simp [hb8, hd5, hf3]

/-- C8 witness: the round-trip theorem applied to bus 171, device 3,
function 5. -/
theorem packed_address_roundtrip_witness :
    bdfid_bus (pci_address.rsmi_id ⟨0, 171, 3, 5⟩) = 171 :=
  (packed_address_roundtrip 171 3 5 (by decide) (by decide) (by decide)).2.2.1

/-- C9: for a non-const family_set left operand, the expressions a & b and
a ^ b select the non-const operator overloads, which assign the computed
result into the left operand: afterwards the left operand holds exactly the
value the const (pure) overload would return, and the expression's own value
is the same; the concrete conjuncts show the assignment genuinely changes the
left operand. -/
theorem family_set_nonconst_ops_assign_into_left (a b : family_set) :
    (family_set.and_nonconst a b).2 = family_set.and_const a b ∧
    (family_set.and_nonconst a b).1 = family_set.and_const a b ∧
    (family_set.xor_nonconst a b).2 = family_set.xor_const a b ∧
    (family_set.xor_nonconst a b).1 = family_set.xor_const a b ∧
    (family_set.and_nonconst ⟨family_set.all⟩ ⟨family_set.gcn5⟩).2 = ⟨family_set.gcn5⟩ ∧
    (⟨family_set.all⟩ : family_set) ≠ ⟨family_set.gcn5⟩ :=
  ⟨rfl, rfl, rfl, rfl, by decide, by decide⟩

/-- C10: every bus address read from the HIP properties is constructed with
function 0, so an HSA agent can only match when its decoded BDFID function
field is 0, and an agent sitting at a nonzero PCI function never matches. -/
theorem hip_address_function_always_zero (dom bus dev d2 bfd : Nat) :
    (hip_pci_address dom bus dev).function = 0 ∧
    (hsa_pci_address d2 bfd = hip_pci_address dom bus dev → bdfid_function bfd = 0) ∧
    (bdfid_function bfd ≠ 0 → hsa_pci_address d2 bfd ≠ hip_pci_address dom bus dev) := by
  refine ⟨rfl, ?_, ?_⟩
  · intro h
    exact congrArg pci_address.function h
  · intro hne h
    exact hne (congrArg pci_address.function h)

/-- C10 witness: the theorem applied to a matching pair: the HIP address of
domain 0, bus 0, device 1 and the HSA agent with domain word 0 and BDFID 8
(device 1, function 0). -/
theorem hip_address_function_always_zero_witness :
    bdfid_function 8 = 0 :=
  (hip_address_function_always_zero 0 0 1 0 8).2.1 (by decide)
